import Mathlib

/-!
Shallow embedding of the reminder dispatch engine of the
`Creatte_contactSystem` repository:

* `src/netlify/functions/check-reminders.js` — periodic reminder cycle:
  fetch flat records from the data source, filter eligible schedules,
  match the 24h/3h/1h reminder windows, render the message template and
  push it over the notification channel, accumulating `sent` and
  `skipped` lists.
* `src/netlify/functions/send-reminder.js` — ad-hoc broadcast: push a
  literal message to an explicit list of recipient identifiers, one
  outcome record each.

External collaborators (HTTPS transport, the LINE push API, Firestore,
`Date` parsing) are parameters: a push call is a function returning
`Except String Nat` (transport rejection or an HTTP status code), the
data-source fetch is an `Except String (Nat × List Rec)` (transport
rejection, or status code plus decoded flat records), and the civil
date-time parser is a function `String → Int` to epoch milliseconds.
JavaScript `undefined`/`null` record fields are modelled as `none`.
-/

/-- A flat record as produced by `parseFirestoreDoc`: the union of the
fields the handler reads, each possibly absent (`undefined`/`null`). -/
structure Rec where
  type : Option String := none
  schedule_date : Option String := none
  schedule_time : Option String := none
  student_name : Option String := none
  subject : Option String := none
  instructor : Option String := none
  attendance : Option String := none
  student_line_id : Option String := none
  remind_24h : Option Bool := none
  remind_3h : Option Bool := none
  remind_1h : Option Bool := none
  template_24h : Option String := none
deriving Repr, DecidableEq

/-- JavaScript truthiness of a string-valued field: `undefined`, `null`
and `""` are falsy, every other string is truthy. -/
def truthyS : Option String → Bool
  | none => false
  | some s => s ≠ ""

/-- JavaScript truthiness of a boolean-valued field: `undefined` and
`null` are falsy. -/
def truthyB : Option Bool → Bool
  | none => false
  | some b => b

/-- JavaScript strict equality `===` between two possibly-absent string
fields. -/
def strictEq : Option String → Option String → Bool
  | some a, some b => a = b
  | none, none => true
  | _, _ => false

/-- JavaScript string coercion of a possibly-absent value, as in a
template literal: `undefined` prints as `"undefined"`. -/
def orUndef : Option String → String
  | none => "undefined"
  | some s => s

/-- JavaScript `x || ''` for a string-valued field. -/
def orEmpty : Option String → String
  | none => ""
  | some s => s

/-- JavaScript `x || d` for a string-valued field: falsy (`undefined`,
`null`, `""`) falls back to `d`. -/
def jsOr : Option String → String → String
  | none, d => d
  | some s, d => if s = "" then d else s

/-- Line 115 of `check-reminders.js`: the 24-hour window is due. -/
def is24h (settings : Rec) (diffMin : Int) : Bool :=
  truthyB settings.remind_24h && decide (1425 ≤ diffMin) && decide (diffMin ≤ 1455)

/-- Line 116 of `check-reminders.js`: the 3-hour window is due. -/
def is3h (settings : Rec) (diffMin : Int) : Bool :=
  truthyB settings.remind_3h && decide (165 ≤ diffMin) && decide (diffMin ≤ 195)

/-- Line 117 of `check-reminders.js`: the 1-hour window is due. -/
def is1h (settings : Rec) (diffMin : Int) : Bool :=
  truthyB settings.remind_1h && decide (45 ≤ diffMin) && decide (diffMin ≤ 75)

/-- Window label `'24時間前'` (line 131). -/
def label24h : String := "24時間前"

/-- Window label `'3時間前'` (line 131). -/
def label3h : String := "3時間前"

/-- Window label `'1時間前'` (line 131). -/
def label1h : String := "1時間前"

/-- The window matcher as a single function: the first due window in the
fixed priority order 24h → 3h → 1h (lines 115–131), `none` when no
enabled band matches (the skip branch, line 119). -/
def matchWindow (settings : Rec) (diffMin : Int) : Option String :=
  if is24h settings diffMin then some label24h
  else if is3h settings diffMin then some label3h
  else if is1h settings diffMin then some label1h
  else none

/-- JavaScript `String.prototype.replace` with a string pattern, on
character lists: replace the first occurrence of `pat` (leftmost match)
by `rep`, leave the string unchanged when `pat` does not occur. -/
def replaceFirst (pat rep : List Char) : List Char → List Char
  | [] => if pat.isPrefixOf ([] : List Char) then rep else []
  | c :: rest =>
    if pat.isPrefixOf (c :: rest) then rep ++ (c :: rest).drop pat.length
    else c :: replaceFirst pat rep rest

/-- JavaScript `String.prototype.replace(pat, rep)` at string level. -/
def jsReplace (s pat rep : String) : String :=
  String.mk (replaceFirst pat.data rep.data s.data)

/-- Placeholder `'{生徒名}'` (student name). -/
def phName : String := "\x7b生徒名\x7d"

/-- Placeholder `'{日時}'` (date-time). -/
def phDateTime : String := "\x7b日時\x7d"

/-- Placeholder `'{科目}'` (subject). -/
def phSubject : String := "\x7b科目\x7d"

/-- Placeholder `'{担当講師}'` (instructor). -/
def phInstructor : String := "\x7b担当講師\x7d"

/-- The template of the hard-coded default settings object
(`check-reminders.js` line 97), used when no `reminder_settings` record
exists. -/
def defaultTemplate : String :=
  "\x7b生徒名\x7dさん、授業のリマインドです。\n\n📅 \x7b日時\x7d\n📚 \x7b科目\x7d\n👨‍🏫 \x7b担当講師\x7d\n\nご予定の変更がある場合はご連絡ください。"

/-- The inline fallback template (`check-reminders.js` line 134), used
when the settings record's `template_24h` field is falsy. -/
def fallbackTemplate : String :=
  "\x7b生徒名\x7dさん、授業リマインド\n📅\x7b日時\x7d\n📚\x7b科目\x7d"

/-- Line 132 of `check-reminders.js`: the date-time string, date then a space then time. -/
def dateStrOf (schedule : Rec) : String :=
  orUndef schedule.schedule_date ++ " " ++ orUndef schedule.schedule_time

/-- Lines 134–138 of `check-reminders.js`: the rendered message body — the
stored template (or, when falsy, the inline fallback) with the four
placeholders substituted first-occurrence-only. -/
def messageBody (settings schedule : Rec) : String :=
  jsReplace
    (jsReplace
      (jsReplace
        (jsReplace (jsOr settings.template_24h fallbackTemplate)
          phName (orUndef schedule.student_name))
        phDateTime (dateStrOf schedule))
      phSubject (orEmpty schedule.subject))
    phInstructor (orEmpty schedule.instructor)

/-- Line 140 of `check-reminders.js`: the pushed text — window label banner,
newline, rendered body. -/
def renderText (settings schedule : Rec) (label : String) : String :=
  "【授業リマインド - " ++ label ++ "】\n" ++ messageBody settings schedule

/-- Line 107 of `check-reminders.js`: the schedule carries a truthy date,
time and student name. -/
def hasRequiredFields (schedule : Rec) : Bool :=
  truthyS schedule.schedule_date && truthyS schedule.schedule_time &&
    truthyS schedule.student_name

/-- Line 108 of `check-reminders.js`: the attendance status excludes the
schedule (`'完了'` completed, `'欠席'` absent). -/
def attendanceExcluded (schedule : Rec) : Bool :=
  strictEq schedule.attendance (some "完了") ||
    strictEq schedule.attendance (some "欠席")

/-- A schedule record survives both `continue` guards (lines 107–108)
and reaches window matching. -/
def eligible (schedule : Rec) : Bool :=
  hasRequiredFields schedule && !attendanceExcluded schedule

/-- Line 111 of `check-reminders.js`: the ISO-8601 string handed to
`new Date(...)` for the class start instant (fixed UTC+9 offset). -/
def classTimeStr (schedule : Rec) : String :=
  orUndef schedule.schedule_date ++ "T" ++ orUndef schedule.schedule_time ++ ":00+09:00"

/-- Line 112 of `check-reminders.js`:
`Math.floor((classTime - now) / 60000)`, with `parseDT` the external
`Date` parser to epoch milliseconds and `now` the current instant. -/
def diffMinOf (parseDT : String → Int) (now : Int) (schedule : Rec) : Int :=
  Int.fdiv (parseDT (classTimeStr schedule) - now) 60000

/-- Line 125 of `check-reminders.js`: look up the student record whose
`student_name` is `===`-equal to the schedule's. -/
def findStudent (students : List Rec) (schedule : Rec) : Option Rec :=
  students.find? (fun st => strictEq st.student_name schedule.student_name)

/-- The optional chain `student?.student_line_id` (line 126): the recipient
identifier. -/
def lineIdOf (students : List Rec) (schedule : Rec) : Option String :=
  match findStudent students schedule with
  | none => none
  | some st => st.student_line_id

/-- One entry of the `sent` outcome list (line 143). -/
structure SentEntry where
  student : String
  label : String
  lineStatus : Nat
deriving Repr, DecidableEq

/-- One entry of the `skipped` list (line 120). -/
structure SkipEntry where
  student : String
  diffMin : Int
deriving Repr, DecidableEq

/-- One performed notification-channel push (the arguments of
`pushLine`, line 142); kept as a trace so theorems can speak about which
pushes the cycle performs. -/
structure PushCall where
  userId : String
  text : String
deriving Repr, DecidableEq

/-- The accumulated observable effects of the reminder loop. -/
structure LoopOut where
  sent : List SentEntry
  skipped : List SkipEntry
  calls : List PushCall
deriving Repr, DecidableEq

/-- The `for` loop of `check-reminders.js` lines 106–145. `push` is the
notification channel: `.error` is a transport-level promise rejection
(`req.on('error', reject)` in the `request` wrapper, which the
un-guarded `await pushLine` propagates, aborting the loop), `.ok status`
is a resolved response of any HTTP status. Entries are accumulated in
schedule order. -/
def runLoop (push : String → String → Except String Nat)
    (parseDT : String → Int) (settings : Rec) (students : List Rec)
    (now : Int) : List Rec → Except String LoopOut
  | [] => .ok ⟨[], [], []⟩
  | schedule :: rest =>
    if !hasRequiredFields schedule then
      runLoop push parseDT settings students now rest
    else if attendanceExcluded schedule then
      runLoop push parseDT settings students now rest
    else
      let diffMin := diffMinOf parseDT now schedule
      if !is24h settings diffMin && !is3h settings diffMin && !is1h settings diffMin then
        match runLoop push parseDT settings students now rest with
        | .error e => .error e
        | .ok out =>
          .ok ⟨out.sent, ⟨orUndef schedule.student_name, diffMin⟩ :: out.skipped, out.calls⟩
      else
        let lineId := lineIdOf students schedule
        if !truthyS lineId then
          runLoop push parseDT settings students now rest
        else
          let label :=
            if is24h settings diffMin then label24h
            else if is3h settings diffMin then label3h
            else label1h
          let text := renderText settings schedule label
          match push (orUndef lineId) text with
          | .error e => .error e
          | .ok status =>
            match runLoop push parseDT settings students now rest with
            | .error e => .error e
            | .ok out =>
              .ok ⟨⟨orUndef schedule.student_name, label, status⟩ :: out.sent,
                   out.skipped, ⟨orUndef lineId, text⟩ :: out.calls⟩

/-- Function `getFirestoreDocs` (lines 34–43): a transport rejection propagates;
a resolved non-200 response yields the empty record list; a 200 response
yields the decoded records. -/
def getFirestoreDocs (fetch : Except String (Nat × List Rec)) :
    Except String (List Rec) :=
  match fetch with
  | .error e => .error e
  | .ok (status, docs) => if status ≠ 200 then .ok [] else .ok docs

/-- The hard-coded default settings object (lines 93–98), used when no
`reminder_settings` record is found. -/
def defaultSettings : Rec :=
  { remind_24h := some true, remind_3h := some true, remind_1h := some false,
    template_24h := some defaultTemplate }

/-- The successful HTTP response body of `check-reminders` (lines
147–155). -/
structure Response where
  statusCode : Nat
  message : String
  sent : List SentEntry
  skippedCount : Nat
deriving Repr, DecidableEq

/-- The `check-reminders` handler after the configuration check (lines
89–155): fetch, split records by `type`, fall back to default settings,
run the loop, and wrap the summary in a status-200 response. An
`.error` result is an unhandled promise rejection: the invocation fails
with no summary response. -/
def handler (fetch : Except String (Nat × List Rec))
    (push : String → String → Except String Nat)
    (parseDT : String → Int) (now : Int) : Except String Response :=
  match getFirestoreDocs fetch with
  | .error e => .error e
  | .ok allData =>
    let schedules := allData.filter (fun d => strictEq d.type (some "schedule"))
    let students := allData.filter (fun d => strictEq d.type (some "student"))
    let settings :=
      (allData.find? (fun d => strictEq d.type (some "reminder_settings"))).getD
        defaultSettings
    match runLoop push parseDT settings students now schedules with
    | .error e => .error e
    | .ok out =>
      .ok { statusCode := 200,
            message := toString out.sent.length ++ "件のリマインドを送信しました",
            sent := out.sent,
            skippedCount := out.skipped.length }

/-- One entry of the ad-hoc broadcast `results` list
(`send-reminder.js` lines 45 and 47). -/
structure SendResult where
  userId : String
  status : String
  error : Option String
deriving Repr, DecidableEq

/-- The per-recipient outcome of one `pushMessage` call wrapped in the
`try`/`catch` of `send-reminder.js` lines 43–48. -/
def mkResult (userId : String) (r : Except String String) : SendResult :=
  match r with
  | .ok _ => ⟨userId, "success", none⟩
  | .error e => ⟨userId, "error", some e⟩

/-- The ad-hoc broadcast loop of `send-reminder.js` lines 41–49: one
outcome record per recipient identifier, in input order; a failing push
is caught and recorded, never aborting the loop. `push` models
`pushMessage`: it resolves the response body on HTTP 200 and rejects
otherwise (or on a transport error). -/
def broadcastLoop (push : String → String → Except String String)
    (message : String) : List String → List SendResult
  | [] => []
  | userId :: rest => mkResult userId (push userId message) :: broadcastLoop push message rest

/-! ## Concrete fixtures used by witnesses and counterexamples -/

/-- A push channel that always resolves with HTTP status 200. -/
def pushOk : String → String → Except String Nat := fun _ _ => .ok 200

/-- A push channel whose underlying HTTPS request always errors: the
promise returned by the `request` wrapper rejects. -/
def pushReject : String → String → Except String Nat :=
  fun _ _ => .error "socket hang up"

/-- A date parser returning a constant instant, in epoch milliseconds. -/
def parseConst (t : Int) : String → Int := fun _ => t

/-- A student record with a recipient identifier. -/
def studentTaro : Rec :=
  { type := some "student", student_name := some "太郎",
    student_line_id := some "U1" }

/-- A second student record with a recipient identifier. -/
def studentJiro : Rec :=
  { type := some "student", student_name := some "次郎",
    student_line_id := some "U2" }

/-- A student record without a recipient identifier. -/
def studentHanako : Rec :=
  { type := some "student", student_name := some "花子" }

/-- An eligible schedule record for 太郎. -/
def schedTaro : Rec :=
  { type := some "schedule", schedule_date := some "2024-06-10",
    schedule_time := some "10:00", student_name := some "太郎",
    subject := some "数学", instructor := some "佐藤" }

/-- An eligible schedule record for 次郎. -/
def schedJiro : Rec :=
  { type := some "schedule", schedule_date := some "2024-06-10",
    schedule_time := some "10:00", student_name := some "次郎",
    subject := some "英語", instructor := some "鈴木" }

/-- An eligible schedule record for 花子 (whose student record has no
recipient identifier). -/
def schedHanako : Rec :=
  { type := some "schedule", schedule_date := some "2024-06-10",
    schedule_time := some "10:00", student_name := some "花子",
    subject := some "国語", instructor := some "高橋" }

/-- A schedule record excluded by its attendance status `'完了'`. -/
def schedDone : Rec :=
  { type := some "schedule", schedule_date := some "2024-06-10",
    schedule_time := some "10:00", student_name := some "太郎",
    attendance := some "完了" }

/-- With `now = 0`, this parsed class instant puts `diffMin` at exactly
1430 minutes, inside the 24-hour band. -/
def millis1430 : Int := 1430 * 60000

/-- A broadcast push channel that rejects for recipient `"U2"` and
resolves for everyone else, modelling one failing send among three. -/
def pushFailU2 : String → String → Except String String :=
  fun userId _ =>
    if userId = "U2" then .error "LINE API error: 500 x" else .ok "ok"

/-- Projection of a loop outcome onto the `sent` list, propagating a
rejection. -/
def sentOf : Except String LoopOut → Except String (List SentEntry)
  | .error e => .error e
  | .ok out => .ok out.sent

/-! ## Helper lemmas -/

/-- The window matcher returns nothing exactly when all three window
predicates are false. -/
theorem matchWindow_eq_none_iff (settings : Rec) (d : Int) :
    matchWindow settings d = none ↔
      is24h settings d = false ∧ is3h settings d = false ∧
        is1h settings d = false := by
  unfold matchWindow
  cases h24 : is24h settings d <;> cases h3 : is3h settings d <;>
    cases h1 : is1h settings d <;> simp

/-- Unfolding of the 24-hour window predicate. -/
theorem is24h_eq_true_iff (settings : Rec) (d : Int) :
    is24h settings d = true ↔
      truthyB settings.remind_24h = true ∧ 1425 ≤ d ∧ d ≤ 1455 := by
  simp [is24h, and_assoc]

/-- Unfolding of the 3-hour window predicate. -/
theorem is3h_eq_true_iff (settings : Rec) (d : Int) :
    is3h settings d = true ↔
      truthyB settings.remind_3h = true ∧ 165 ≤ d ∧ d ≤ 195 := by
  simp [is3h, and_assoc]

/-- Unfolding of the 1-hour window predicate. -/
theorem is1h_eq_true_iff (settings : Rec) (d : Int) :
    is1h settings d = true ↔
      truthyB settings.remind_1h = true ∧ 45 ≤ d ∧ d ≤ 75 := by
  simp [is1h, and_assoc]

/-- When the pattern matches at the front, `replaceFirst` replaces it
and keeps the tail. -/
theorem replaceFirst_of_front (pat rep s : List Char)
    (h : pat.isPrefixOf s = true) :
    replaceFirst pat rep s = rep ++ s.drop pat.length := by
  cases s with
  | nil => simp [replaceFirst, h]
  | cons c rest => simp [replaceFirst, h]

/-- When the first occurrence of `pat` in `x ++ pat ++ y` is the shown
one (no occurrence starts inside `x`), `replaceFirst` substitutes
exactly that occurrence. -/
theorem replaceFirst_first_occurrence (pat rep : List Char) :
    ∀ x y : List Char,
      (∀ i < x.length, pat.isPrefixOf ((x ++ pat ++ y).drop i) = false) →
      replaceFirst pat rep (x ++ pat ++ y) = x ++ rep ++ y := by
  intro x
  induction x with
  | nil =>
    intro y _
    have hpre : pat.isPrefixOf (pat ++ y) = true := by
      rw [List.isPrefixOf_iff_prefix]
      exact List.prefix_append pat y
    simp only [List.nil_append]
    rw [replaceFirst_of_front pat rep (pat ++ y) hpre, List.drop_left]
  | cons c x ih =>
    intro y h
    have h0 : pat.isPrefixOf (c :: (x ++ pat ++ y)) = false := by
      have := h 0 (by simp)
      simpa using this
    cases pat with
    | nil => simp at h0
    | cons p ps =>
      show replaceFirst (p :: ps) rep (c :: (x ++ (p :: ps) ++ y)) = _
      rw [replaceFirst, h0]
      simp only [if_neg Bool.false_ne_true]
      simp only [List.cons_append]
      congr 1
      exact ih y (fun i hi => by have := h (i + 1) (by simpa using hi); simpa using this)

/-- When the pattern is non-empty and occurs nowhere in `s`,
`replaceFirst` leaves `s` unchanged. -/
theorem replaceFirst_of_no_occurrence (pat rep : List Char)
    (hne : pat ≠ []) :
    ∀ s : List Char, (∀ i, pat.isPrefixOf (s.drop i) = false) →
      replaceFirst pat rep s = s := by
  intro s
  induction s with
  | nil =>
    intro _
    cases pat with
    | nil => exact absurd rfl hne
    | cons p ps => simp [replaceFirst, List.isPrefixOf]
  | cons c rest ih =>
    intro h
    have h0 : pat.isPrefixOf (c :: rest) = false := by simpa using h 0
    rw [replaceFirst, h0]
    simp only [if_neg Bool.false_ne_true]
    congr 1
    exact ih (fun i => by simpa using h (i + 1))

/-- Replacing the first occurrence shortens the string by at most the
pattern's length. -/
theorem length_replaceFirst (pat rep : List Char) :
    ∀ s : List Char, s.length ≤ (replaceFirst pat rep s).length + pat.length := by
  intro s
  induction s with
  | nil => simp [replaceFirst]
  | cons c rest ih =>
    rw [replaceFirst]
    by_cases h : pat.isPrefixOf (c :: rest) = true
    · rw [if_pos h]
      have hle : pat.length ≤ (c :: rest).length := by
        rw [List.isPrefixOf_iff_prefix] at h
        exact h.length_le
      simp only [List.length_append, List.length_drop]
      omega
    · rw [if_neg h]
      simp only [List.length_cons]
      omega

/-- String-level version of `length_replaceFirst`. -/
theorem length_jsReplace (s pat rep : String) :
    s.length ≤ (jsReplace s pat rep).length + pat.length := by
  show s.data.length ≤ (replaceFirst pat.data rep.data s.data).length + pat.data.length
  exact length_replaceFirst pat.data rep.data s.data

/-! ## Claim theorems -/

/-- C1: with a window's enabled flag set, that window's predicate holds
exactly when `diffMinutes` lies in its closed band — `[1425, 1455]` for
the 24-hour window, `[165, 195]` for 3-hour, `[45, 75]` for 1-hour; the
matcher yields no window exactly when no enabled band contains
`diffMinutes`, and in that case the reminder loop records the schedule
as skipped with its `diffMin`. -/
theorem C1_window_band_matching (settings : Rec) (d : Int) :
    (truthyB settings.remind_24h = true →
      (is24h settings d = true ↔ 1425 ≤ d ∧ d ≤ 1455)) ∧
    (truthyB settings.remind_3h = true →
      (is3h settings d = true ↔ 165 ≤ d ∧ d ≤ 195)) ∧
    (truthyB settings.remind_1h = true →
      (is1h settings d = true ↔ 45 ≤ d ∧ d ≤ 75)) ∧
    (matchWindow settings d = none ↔
      ¬(is24h settings d = true ∨ is3h settings d = true ∨
        is1h settings d = true)) ∧
    (∀ (push : String → String → Except String Nat) (parseDT : String → Int)
        (students : List Rec) (now : Int) (schedule : Rec) (rest : List Rec),
      eligible schedule = true →
      diffMinOf parseDT now schedule = d →
      matchWindow settings d = none →
      runLoop push parseDT settings students now (schedule :: rest) =
        match runLoop push parseDT settings students now rest with
        | .error e => .error e
        | .ok out => .ok ⟨out.sent,
            ⟨orUndef schedule.student_name, d⟩ :: out.skipped, out.calls⟩) := by
  refine ⟨?_, ?_, ?_, ?_, ?_⟩
  · intro h; rw [is24h_eq_true_iff]; simp [h]
  · intro h; rw [is3h_eq_true_iff]; simp [h]
  · intro h; rw [is1h_eq_true_iff]; simp [h]
  · rw [matchWindow_eq_none_iff]
    constructor
    · rintro ⟨a, b, c⟩ (h | h | h) <;> simp_all
    · intro h
      refine ⟨?_, ?_, ?_⟩ <;> [skip; skip; skip] <;>
        first
        | (cases hc : is24h settings d
           · rfl
           · exact absurd (Or.inl hc) h)
        | (cases hc : is3h settings d
           · rfl
           · exact absurd (Or.inr (Or.inl hc)) h)
        | (cases hc : is1h settings d
           · rfl
           · exact absurd (Or.inr (Or.inr hc)) h)
  · intro push parseDT students now schedule rest he hd hm
    have hesplit := he
    rw [eligible, Bool.and_eq_true] at hesplit
    have hr : hasRequiredFields schedule = true := hesplit.1
    have hx : attendanceExcluded schedule = false := by
      have := hesplit.2; simpa using this
    rw [matchWindow_eq_none_iff] at hm
    rw [runLoop, hr, hx, hd]
    simp [hm.1, hm.2.1, hm.2.2]

/-- C1 witness: at `diffMinutes = 1430` with the default settings the
24-hour band matches, and a concrete eligible schedule at
`diffMinutes = 1456` is recorded as skipped. -/
theorem C1_window_band_matching_witness :
    (is24h defaultSettings 1430 = true ↔
      1425 ≤ (1430 : Int) ∧ (1430 : Int) ≤ 1455) ∧
    runLoop pushOk (parseConst (1456 * 60000)) defaultSettings [studentTaro] 0
        [schedTaro] = .ok ⟨[], [⟨"太郎", 1456⟩], []⟩ := by
  constructor
  · exact (C1_window_band_matching defaultSettings 1430).1 (by decide)
  · rw [(C1_window_band_matching defaultSettings 1456).2.2.2.2 pushOk
      (parseConst (1456 * 60000)) [studentTaro] 0 schedTaro []
      (by decide) (by decide) (by decide)]
    rfl

/-- C3: under any enabled-flag setting the three window predicates are
pairwise exclusive — the closed bands `[1425, 1455]`, `[165, 195]` and
`[45, 75]` are disjoint — and whenever a predicate holds the matcher
returns exactly that window, following the fixed 24h → 3h → 1h priority
order. -/
theorem C3_windows_mutually_exclusive (settings : Rec) (d : Int) :
    ¬(is24h settings d = true ∧ is3h settings d = true) ∧
    ¬(is24h settings d = true ∧ is1h settings d = true) ∧
    ¬(is3h settings d = true ∧ is1h settings d = true) ∧
    (is24h settings d = true → matchWindow settings d = some label24h) ∧
    (is3h settings d = true → matchWindow settings d = some label3h) ∧
    (is1h settings d = true → matchWindow settings d = some label1h) := by
  have h24 := is24h_eq_true_iff settings d
  have h3 := is3h_eq_true_iff settings d
  have h1 := is1h_eq_true_iff settings d
  have n24of3 : is3h settings d = true → is24h settings d = false := by
    intro a
    cases hc : is24h settings d
    · rfl
    · have b1 := (h24.mp hc).2
      have b2 := (h3.mp a).2
      omega
  have n24of1 : is1h settings d = true → is24h settings d = false := by
    intro a
    cases hc : is24h settings d
    · rfl
    · have b1 := (h24.mp hc).2
      have b2 := (h1.mp a).2
      omega
  have n3of1 : is1h settings d = true → is3h settings d = false := by
    intro a
    cases hc : is3h settings d
    · rfl
    · have b1 := (h3.mp hc).2
      have b2 := (h1.mp a).2
      omega
  refine ⟨?_, ?_, ?_, ?_, ?_, ?_⟩
  · rintro ⟨a, b⟩; rw [n24of3 b] at a; exact Bool.false_ne_true a
  · rintro ⟨a, b⟩; rw [n24of1 b] at a; exact Bool.false_ne_true a
  · rintro ⟨a, b⟩; rw [n3of1 b] at a; exact Bool.false_ne_true a
  · intro a; rw [matchWindow, if_pos a]
  · intro a; rw [matchWindow, if_neg (by simp [n24of3 a]), if_pos a]
  · intro a
    rw [matchWindow, if_neg (by simp [n24of1 a]), if_neg (by simp [n3of1 a]),
      if_pos a]

/-- C3 witness: at `diffMinutes = 180` the default settings match
exactly the 3-hour window. -/
theorem C3_windows_mutually_exclusive_witness :
    matchWindow defaultSettings 180 = some label3h :=
  (C3_windows_mutually_exclusive defaultSettings 180).2.2.2.2.1 (by decide)

/-- C4: a schedule record whose attendance status is `'完了'` or
`'欠席'`, or whose date, time or student name is falsy, contributes
nothing to the loop — processing the list with it equals processing the
list without it, so it appears in neither the sent nor the
skipped-for-timing list and window matching is never applied to it. -/
theorem C4_ineligible_excluded_upstream
    (push : String → String → Except String Nat) (parseDT : String → Int)
    (settings : Rec) (students : List Rec) (now : Int)
    (schedule : Rec) (rest : List Rec) (h : eligible schedule = false) :
    runLoop push parseDT settings students now (schedule :: rest) =
      runLoop push parseDT settings students now rest := by
  cases hr : hasRequiredFields schedule with
  | false => rw [runLoop, hr]; simp
  | true =>
    have hx : attendanceExcluded schedule = true := by
      rw [eligible, hr] at h
      simpa using h
    rw [runLoop, hr, hx]
    simp

/-- C4 witness: a concrete schedule with attendance `'完了'` leaves the
loop outcome unchanged. -/
theorem C4_ineligible_excluded_upstream_witness :
    runLoop pushOk (parseConst millis1430) defaultSettings [studentTaro] 0
        [schedDone] =
      runLoop pushOk (parseConst millis1430) defaultSettings [studentTaro] 0
        [] :=
  C4_ineligible_excluded_upstream pushOk (parseConst millis1430)
    defaultSettings [studentTaro] 0 schedDone [] (by decide)

/-- C5: when the schedule's student name matches no student record, or
the matched record's recipient identifier is falsy, the loop performs no
push for that schedule and produces no error: with a due window the
schedule contributes nothing at all, and otherwise it only adds its
skipped-for-timing entry. -/
theorem C5_unresolved_recipient_skipped
    (push : String → String → Except String Nat) (parseDT : String → Int)
    (settings : Rec) (students : List Rec) (now : Int)
    (schedule : Rec) (rest : List Rec)
    (he : eligible schedule = true)
    (hl : truthyS (lineIdOf students schedule) = false) :
    runLoop push parseDT settings students now (schedule :: rest) =
      if matchWindow settings (diffMinOf parseDT now schedule) = none then
        match runLoop push parseDT settings students now rest with
        | .error e => .error e
        | .ok out => .ok ⟨out.sent,
            ⟨orUndef schedule.student_name, diffMinOf parseDT now schedule⟩ ::
              out.skipped, out.calls⟩
      else runLoop push parseDT settings students now rest := by
  rw [eligible, Bool.and_eq_true] at he
  have hr : hasRequiredFields schedule = true := he.1
  have hx : attendanceExcluded schedule = false := by
    have := he.2; simpa using this
  rw [runLoop, hr, hx]
  cases h24 : is24h settings (diffMinOf parseDT now schedule) <;>
    cases h3 : is3h settings (diffMinOf parseDT now schedule) <;>
      cases h1 : is1h settings (diffMinOf parseDT now schedule) <;>
        simp [matchWindow, h24, h3, h1, hl]

/-- C5 witness: a concrete due schedule whose student name matches no
student record contributes no push, no sent entry and no error. -/
theorem C5_unresolved_recipient_skipped_witness :
    runLoop pushOk (parseConst millis1430) defaultSettings [] 0
        [schedHanako] =
      if matchWindow defaultSettings
          (diffMinOf (parseConst millis1430) 0 schedHanako) = none then
        match runLoop pushOk (parseConst millis1430) defaultSettings [] 0 []
            with
        | .error e => .error e
        | .ok out => .ok ⟨out.sent,
            ⟨orUndef schedHanako.student_name,
              diffMinOf (parseConst millis1430) 0 schedHanako⟩ :: out.skipped,
            out.calls⟩
      else runLoop pushOk (parseConst millis1430) defaultSettings [] 0 [] :=
  C5_unresolved_recipient_skipped pushOk (parseConst millis1430)
    defaultSettings [] 0 schedHanako [] (by decide) (by decide)

/-- C9: an eligible schedule with a due window whose matched student has
no recipient identifier appears in neither the sent nor the skipped
list, so sent-count plus skipped-count is strictly below the number of
eligible schedules processed. -/
theorem C9_unresolved_recipient_uncounted :
    ∃ out, runLoop pushOk (parseConst millis1430) defaultSettings
        [studentHanako] 0 [schedHanako] = .ok out ∧
      out.sent.length + out.skipped.length <
        (List.filter eligible [schedHanako]).length := by
  refine ⟨⟨[], [], []⟩, rfl, by decide⟩

/-- C6: the renderer substitutes only the first occurrence of a
placeholder (formally: when the first occurrence of `pat` in
`x ++ pat ++ y` is the one shown, exactly it is replaced), leaves a
string without the placeholder unchanged (no error), leaves the second
copy of a repeated placeholder intact, substitutes the empty string for
an absent subject or instructor, formats the date-time as
`"<date> <time>"`, and prefixes the window-label banner plus a newline
before the body. -/
theorem C6_first_occurrence_rendering :
    (∀ pat rep x y : List Char,
        (∀ i < x.length, pat.isPrefixOf ((x ++ pat ++ y).drop i) = false) →
        replaceFirst pat rep (x ++ pat ++ y) = x ++ rep ++ y) ∧
    (∀ pat rep s : List Char, pat ≠ [] →
        (∀ i, pat.isPrefixOf (s.drop i) = false) →
        replaceFirst pat rep s = s) ∧
    (∀ settings schedule : Rec, ∀ label : String,
        renderText settings schedule label =
          "【授業リマインド - " ++ label ++ "】\n" ++
            messageBody settings schedule) ∧
    (messageBody { template_24h := some (phName ++ "と" ++ phName) }
        { student_name := some "太郎" } = "太郎と" ++ phName) ∧
    (messageBody { template_24h := none }
        { schedule_date := some "2024-06-10", schedule_time := some "10:00",
          student_name := some "太郎" } =
      "太郎さん、授業リマインド\n📅2024-06-10 10:00\n📚") := by
  refine ⟨fun pat rep => replaceFirst_first_occurrence pat rep,
    fun pat rep s hne h => replaceFirst_of_no_occurrence pat rep hne s h,
    fun settings schedule label => rfl, by decide, by decide⟩

/-- C6 witness: first-occurrence-only substitution and the no-occurrence
case at concrete strings. -/
theorem C6_first_occurrence_rendering_witness :
    replaceFirst ['X'] ['-'] (['a'] ++ ['X'] ++ ['b', 'X']) =
        ['a'] ++ ['-'] ++ ['b', 'X'] ∧
    replaceFirst ['X'] ['-'] ['a', 'b'] = ['a', 'b'] := by
  constructor
  · exact C6_first_occurrence_rendering.1 ['X'] ['-'] ['a'] ['b', 'X']
      (by decide)
  · refine C6_first_occurrence_rendering.2.1 ['X'] ['-'] ['a', 'b']
      (by decide) ?_
    intro i
    match i with
    | 0 => decide
    | 1 => decide
    | n + 2 =>
      have h2 : (['a', 'b'] : List Char).drop (n + 2) = [] :=
        List.drop_eq_nil_of_le (by simp)
      rw [h2]; decide

/-- C7 counterexample: when the data-source HTTPS request itself fails
(the promise rejects), the invocation does not complete with a
status-200 summary — the rejection propagates out of the handler. -/
theorem C7_fetch_reject_fails_invocation :
    handler (.error "socket hang up") pushOk (parseConst 0) 0 =
      .error "socket hang up" := rfl

/-- C7 amended: when the data source resolves with a non-success status
the cycle processes an empty record set and completes with a status-200
summary reporting zero sends and zero skips; a transport-level failure
of the data-source call, however, rejects and fails the invocation. -/
theorem C7_non_success_status_empty_cycle (status : Nat) (docs : List Rec)
    (push : String → String → Except String Nat) (parseDT : String → Int)
    (now : Int) (h : status ≠ 200) :
    handler (.ok (status, docs)) push parseDT now =
      .ok ⟨200, "0件のリマインドを送信しました", [], 0⟩ ∧
    ∀ e, handler (.error e) push parseDT now = .error e := by
  constructor
  · simp only [handler, getFirestoreDocs]
    rw [if_pos h]
    rfl
  · intro e; rfl

/-- C7 witness: a concrete 500 data-source response yields the empty
status-200 summary. -/
theorem C7_non_success_status_empty_cycle_witness :
    handler (.ok (500, [schedTaro])) pushOk (parseConst 0) 0 =
      .ok ⟨200, "0件のリマインドを送信しました", [], 0⟩ :=
  (C7_non_success_status_empty_cycle 500 [schedTaro] pushOk (parseConst 0) 0
    (by decide)).1

/-- C8: the ad-hoc broadcast produces exactly one outcome record per
recipient identifier, in input order, each marked success or error, and
each recipient's outcome depends only on that recipient's own push
call. -/
theorem C8_broadcast_per_recipient
    (push : String → String → Except String String) (message : String)
    (userIds : List String) :
    broadcastLoop push message userIds =
      userIds.map (fun u => mkResult u (push u message)) ∧
    (broadcastLoop push message userIds).length = userIds.length ∧
    (∀ i : Nat, (broadcastLoop push message userIds)[i]? =
      (userIds[i]?).map (fun u => mkResult u (push u message))) ∧
    (∀ r ∈ broadcastLoop push message userIds,
      r.status = "success" ∨ r.status = "error") := by
  have hmap : broadcastLoop push message userIds =
      userIds.map (fun u => mkResult u (push u message)) := by
    induction userIds with
    | nil => rfl
    | cons u rest ih => rw [broadcastLoop, List.map_cons, ih]
  refine ⟨hmap, by rw [hmap]; simp, fun i => by rw [hmap]; simp, ?_⟩
  intro r hr
  rw [hmap] at hr
  rcases List.mem_map.mp hr with ⟨u, _, rfl⟩
  cases hpu : push u message with
  | ok v => left; simp [mkResult, hpu]
  | error e => right; simp [mkResult, hpu]

/-- C8 witness: three recipients with the second one failing — three
outcome records, and the failing one's status is success-or-error. -/
theorem C8_broadcast_per_recipient_witness :
    (broadcastLoop pushFailU2 "m" ["U1", "U2", "U3"]).length = 3 ∧
    ((⟨"U2", "error", some "LINE API error: 500 x"⟩ : SendResult).status =
        "success" ∨
      (⟨"U2", "error", some "LINE API error: 500 x"⟩ : SendResult).status =
        "error") :=
  ⟨(C8_broadcast_per_recipient pushFailU2 "m" ["U1", "U2", "U3"]).2.1,
   (C8_broadcast_per_recipient pushFailU2 "m" ["U1", "U2", "U3"]).2.2.2
     ⟨"U2", "error", some "LINE API error: 500 x"⟩ (by decide)⟩

/-- C10: when a settings record exists but its `template_24h` field is
absent or empty, the body is rendered from the inline fallback template,
which differs from the default-settings template, and the rendered body
is never empty. -/
theorem C10_empty_template_fallback (settings schedule : Rec)
    (h : settings.template_24h = none ∨ settings.template_24h = some "") :
    messageBody settings schedule =
      jsReplace (jsReplace (jsReplace (jsReplace fallbackTemplate
        phName (orUndef schedule.student_name))
        phDateTime (dateStrOf schedule))
        phSubject (orEmpty schedule.subject))
        phInstructor (orEmpty schedule.instructor) ∧
    fallbackTemplate ≠ defaultTemplate ∧
    messageBody settings schedule ≠ "" := by
  have hkey : jsOr settings.template_24h fallbackTemplate = fallbackTemplate := by
    rcases h with h | h <;> simp [jsOr, h]
  have hbody : messageBody settings schedule =
      jsReplace (jsReplace (jsReplace (jsReplace fallbackTemplate
        phName (orUndef schedule.student_name))
        phDateTime (dateStrOf schedule))
        phSubject (orEmpty schedule.subject))
        phInstructor (orEmpty schedule.instructor) := by
    rw [messageBody, hkey]
  refine ⟨hbody, by decide, ?_⟩
  intro hempty
  rw [hbody] at hempty
  have l1 := length_jsReplace fallbackTemplate phName
    (orUndef schedule.student_name)
  have l2 := length_jsReplace (jsReplace fallbackTemplate phName
    (orUndef schedule.student_name)) phDateTime (dateStrOf schedule)
  have l3 := length_jsReplace (jsReplace (jsReplace fallbackTemplate phName
    (orUndef schedule.student_name)) phDateTime (dateStrOf schedule))
    phSubject (orEmpty schedule.subject)
  have l4 := length_jsReplace (jsReplace (jsReplace (jsReplace
    fallbackTemplate phName (orUndef schedule.student_name))
    phDateTime (dateStrOf schedule)) phSubject (orEmpty schedule.subject))
    phInstructor (orEmpty schedule.instructor)
  have e0 : fallbackTemplate.length = 27 := by decide
  have e1 : phName.length = 5 := by decide
  have e2 : phDateTime.length = 4 := by decide
  have e3 : phSubject.length = 4 := by decide
  have e4 : phInstructor.length = 6 := by decide
  have hz : (jsReplace (jsReplace (jsReplace (jsReplace fallbackTemplate
      phName (orUndef schedule.student_name))
      phDateTime (dateStrOf schedule))
      phSubject (orEmpty schedule.subject))
      phInstructor (orEmpty schedule.instructor)).length = 0 := by
    rw [hempty]
    rfl
  omega

/-- C10 witness: a settings record with an empty template falls back to
the inline template and renders a non-empty body at a concrete
schedule. -/
theorem C10_empty_template_fallback_witness :
    messageBody { template_24h := some "" } schedTaro =
      jsReplace (jsReplace (jsReplace (jsReplace fallbackTemplate
        phName (orUndef schedTaro.student_name))
        phDateTime (dateStrOf schedTaro))
        phSubject (orEmpty schedTaro.subject))
        phInstructor (orEmpty schedTaro.instructor) ∧
    fallbackTemplate ≠ defaultTemplate ∧
    messageBody { template_24h := some "" } schedTaro ≠ "" :=
  C10_empty_template_fallback { template_24h := some "" } schedTaro
    (Or.inr rfl)

/-- C2: contrary to the claim, a transport-level failure of one push
call aborts the whole loop — the rejection of the un-guarded
`await pushLine` propagates, so no outcome is recorded for the failing
schedule and the remaining schedules are never processed; with a
resolving channel the same two schedules both get sent entries (any
status code, success or not, is recorded). -/
theorem C2_transport_failure_aborts_loop :
    runLoop pushReject (parseConst millis1430) defaultSettings
        [studentTaro, studentJiro] 0 [schedTaro, schedJiro] =
      .error "socket hang up" ∧
    sentOf (runLoop pushOk (parseConst millis1430) defaultSettings
        [studentTaro, studentJiro] 0 [schedTaro, schedJiro]) =
      .ok [⟨"太郎", label24h, 200⟩, ⟨"次郎", label24h, 200⟩] :=
  ⟨rfl, rfl⟩
